import Mathlib

/-!
Shallow embedding of the loan-lifecycle core of the coop-loan-savings
repository (TypeScript/tRPC/drizzle), used to check the natural-language
specification against the code.

Conventions of the embedding:
* JavaScript numbers are modelled as exact rationals (`ℚ`); `Math.round`
  is `fun x => ⌊x + 1/2⌋` (round half toward +∞, as in JS for the values
  that occur here), so `Math.round(x*100)/100` becomes `round2`.
* Timestamps are abstract instants (`ℤ`); `new Date()` is an explicit
  `now : ℤ` parameter.  Calendar-month due-date arithmetic
  (`dueDate.setMonth(getMonth() + i)`) is abstracted as `now + i`: no
  verified property inspects the calendar structure of due dates.
* The Postgres store is a record of lists; a drizzle
  `update ... where eq(id, x)` is a `List.map` guarded on the id, an
  `insert ... values` is an append, a `select ... where eq(id, x)` is
  `List.find?`.  SQL `serial` row ids for freshly inserted installment
  rows are not modelled (`id := 0`): no verified property depends on them.
  SQL comparisons against a NULL timestamp are false, which is modelled by
  the `Option` match in `inRangeOpt`.
* A thrown JS error is `Except.error` with the (abbreviated) message.
-/

namespace CoopLoan

/-- `Math.round(q * 100) / 100`, the 2-decimal currency rounding used by
the handlers.  JS `Math.round x = ⌊x + 0.5⌋`. -/
def round2 (q : ℚ) : ℚ := (⌊q * 100 + 1/2⌋ : ℚ) / 100

/-- Loan status enum from `db/schema.ts` (`loanStatusEnum`). -/
inductive LoanStatus where
  | pending | approved | rejected | active | completed
deriving Repr, DecidableEq

/-- The `status` field of `processLoanApplicationInputSchema`:
`z.enum(['approved', 'rejected'])`. -/
inductive Decision where
  | approved | rejected
deriving Repr, DecidableEq

/-- `transactionTypeEnum` from `db/schema.ts`. -/
inductive TransactionType where
  | deposit | withdrawal
deriving Repr, DecidableEq

/-- A row of `loansTable` (numeric columns as exact rationals). -/
structure Loan where
  id : ℤ
  user_id : ℤ
  amount : ℚ
  interest_rate : ℚ
  term_months : ℕ
  monthly_payment : ℚ
  total_amount : ℚ
  remaining_balance : ℚ
  status : LoanStatus
  purpose : Option String
  approved_by : Option ℤ
  approved_at : Option ℤ
  disbursed_at : Option ℤ
  created_at : ℤ
  updated_at : ℤ
deriving Repr, DecidableEq

/-- A row of `loanInstallmentsTable`. -/
structure LoanInstallment where
  id : ℤ
  loan_id : ℤ
  installment_number : ℕ
  due_date : ℤ
  amount : ℚ
  principal_amount : ℚ
  interest_amount : ℚ
  paid_amount : ℚ
  paid_at : Option ℤ
  recorded_by : Option ℤ
  is_paid : Bool
deriving Repr, DecidableEq

/-- A row of `accountsTable` (fields the report reads). -/
structure Account where
  id : ℤ
  user_id : ℤ
  balance : ℚ
deriving Repr, DecidableEq

/-- A row of `transactionsTable` (fields the report reads). -/
structure Transaction where
  id : ℤ
  account_id : ℤ
  type : TransactionType
  amount : ℚ
  created_at : ℤ
deriving Repr, DecidableEq

/-- The persistent store: `users` is the list of existing user ids (the
core only ever checks existence of a user id). -/
structure DB where
  users : List ℤ
  accounts : List Account
  transactions : List Transaction
  loans : List Loan
  installments : List LoanInstallment
deriving Repr, DecidableEq

/-- `createLoanApplicationInputSchema` (zod: `amount` positive,
`term_months` positive integer). -/
structure CreateLoanApplicationInput where
  user_id : ℤ
  amount : ℚ
  term_months : ℕ
  purpose : Option String
deriving Repr, DecidableEq

/-- `processLoanApplicationInputSchema` (zod: `interest_rate` positive,
optional). -/
structure ProcessLoanApplicationInput where
  loan_id : ℤ
  status : Decision
  approved_by : ℤ
  interest_rate : Option ℚ
deriving Repr, DecidableEq

/-- `recordLoanPaymentInputSchema` (zod: `paid_amount` positive). -/
structure RecordLoanPaymentInput where
  installment_id : ℤ
  paid_amount : ℚ
  recorded_by : ℤ
deriving Repr, DecidableEq

/-- `handlers/apply_for_loan.ts` (`applyForLoan`): verify the user
exists, then insert a pending loan with zero-valued financial fields.
`newId` is the serial id the database assigns to the inserted row. -/
def applyForLoan (now newId : ℤ) (input : CreateLoanApplicationInput)
    (db : DB) : Except String (DB × Loan) :=
  if db.users.contains input.user_id then
    let loan : Loan :=
      { id := newId
        user_id := input.user_id
        amount := input.amount
        interest_rate := 0
        term_months := input.term_months
        monthly_payment := 0
        total_amount := 0
        remaining_balance := 0
        status := .pending
        purpose := input.purpose
        approved_by := none
        approved_at := none
        disbursed_at := none
        created_at := now
        updated_at := now }
    .ok ({ db with loans := db.loans ++ [loan] }, loan)
  else
    .error "User not found"

/-- The loop body sequence of `createInstallmentSchedule`
(`handlers/process_loan_application.ts`).  The source iterates
`i = 1 .. termMonths`; here `k` counts the iterations still to run after
the current one, so the current index is `i = termMonths - k` and the
source's last-iteration test `i === termMonths` is `k = 0`.  `bal` is the
loop variable `remainingBalance`. -/
def scheduleAux (loanId : ℤ) (monthlyRate monthlyPayment : ℚ) (now : ℤ)
    (termMonths : ℕ) : ℕ → ℚ → List LoanInstallment
  | 0, _ => []
  | k + 1, bal =>
    let i := termMonths - k
    let interestAmount := bal * monthlyRate
    let principalAmount := monthlyPayment - interestAmount
    if k = 0 then
      -- last installment: pay off remaining balance plus interest
      [{ id := 0
         loan_id := loanId
         installment_number := i
         due_date := now + (i : ℤ)
         amount := bal + interestAmount
         principal_amount := bal
         interest_amount := interestAmount
         paid_amount := 0
         paid_at := none
         recorded_by := none
         is_paid := false }]
    else
      { id := 0
        loan_id := loanId
        installment_number := i
        due_date := now + (i : ℤ)
        amount := monthlyPayment
        principal_amount := principalAmount
        interest_amount := interestAmount
        paid_amount := 0
        paid_at := none
        recorded_by := none
        is_paid := false } :: scheduleAux loanId monthlyRate monthlyPayment now termMonths k (bal - principalAmount)

/-- `createInstallmentSchedule(loanId, principal, annualInterestRate,
termMonths, monthlyPayment)` from `handlers/process_loan_application.ts`:
the list of installment rows the handler bulk-inserts. -/
def createInstallmentSchedule (loanId : ℤ) (principal annualInterestRate : ℚ)
    (termMonths : ℕ) (monthlyPayment : ℚ) (now : ℤ) : List LoanInstallment :=
  scheduleAux loanId (annualInterestRate / 100 / 12) monthlyPayment now
    termMonths termMonths principal

/-- The `(monthlyPayment, totalAmount)` pair computed in the
`input.status === 'approved'` branch of `processLoanApplication`. -/
def approvalPaymentTerms (principal : ℚ) (interestRate : ℚ)
    (termMonths : ℕ) : ℚ × ℚ :=
  let monthlyRate := interestRate / 100 / 12
  if 0 < monthlyRate then
    let factor := (1 + monthlyRate) ^ termMonths
    let exactMonthlyPayment := principal * (monthlyRate * factor) / (factor - 1)
    let monthlyPayment := round2 exactMonthlyPayment
    (monthlyPayment, monthlyPayment * (termMonths : ℚ))
  else
    -- 0% interest rate: payment is the rounded straight division, but
    -- totalAmount is set to the principal itself
    (round2 (principal / (termMonths : ℚ)), principal)

/-- The loan row produced by the `db.update(loansTable)` statement of
`processLoanApplication` for an approval: financial fields populated and
status forced to `active`. -/
def approvedLoanRow (now : ℤ) (approvedBy : ℤ) (interestRate : ℚ)
    (loan : Loan) : Loan :=
  let terms := approvalPaymentTerms loan.amount interestRate loan.term_months
  { loan with
      status := .active
      approved_by := some approvedBy
      approved_at := some now
      updated_at := now
      interest_rate := interestRate
      monthly_payment := terms.1
      total_amount := terms.2
      remaining_balance := terms.2 }

/-- The loan row produced by the `db.update(loansTable)` statement of
`processLoanApplication` for a rejection: only status/approval metadata
change, `approved_at` stays null. -/
def rejectedLoanRow (now : ℤ) (approvedBy : ℤ) (loan : Loan) : Loan :=
  { loan with
      status := .rejected
      approved_by := some approvedBy
      approved_at := none
      updated_at := now }

/-- `update loansTable set ... where eq(loansTable.id, loanId)`. -/
def updateLoanById (loans : List Loan) (loanId : ℤ) (updated : Loan) :
    List Loan :=
  loans.map (fun l => if l.id == loanId then updated else l)

/-- `handlers/process_loan_application.ts` (`processLoanApplication`),
validation and the first committed write: fetch the loan, require
`pending` status, require `interest_rate` on approval, and run the
`db.update(loansTable)` statement.  The source runs this update and the
installment bulk insert as two separate non-transactional statements, so
the state returned here is a really committed database state: it is what
remains if the subsequent installment insert fails. -/
def processLoanApplicationLoanUpdate (now : ℤ)
    (input : ProcessLoanApplicationInput) (db : DB) :
    Except String (DB × Loan) :=
  match db.loans.find? (fun l => l.id == input.loan_id) with
  | none => .error "Loan application not found"
  | some existingLoan =>
    if existingLoan.status ≠ .pending then
      .error "Loan application is not in pending status"
    else
      match input.status with
      | .rejected =>
        let updated := rejectedLoanRow now input.approved_by existingLoan
        .ok ({ db with loans := updateLoanById db.loans input.loan_id updated }, updated)
      | .approved =>
        match input.interest_rate with
        | none => .error "Interest rate is required for loan approval"
        | some rate =>
          let updated := approvedLoanRow now input.approved_by rate existingLoan
          .ok ({ db with loans := updateLoanById db.loans input.loan_id updated }, updated)

/-- `handlers/process_loan_application.ts` (`processLoanApplication`),
the whole handler: the loan update above followed, for approvals, by the
bulk insert of `createInstallmentSchedule(loan_id, amount, interest_rate,
term_months, monthly_payment)`. -/
def processLoanApplication (now : ℤ) (input : ProcessLoanApplicationInput)
    (db : DB) : Except String (DB × Loan) :=
  match processLoanApplicationLoanUpdate now input db with
  | .error e => .error e
  | .ok (db1, updatedLoan) =>
    match input.status with
    | .rejected => .ok (db1, updatedLoan)
    | .approved =>
      let schedule := createInstallmentSchedule input.loan_id
        updatedLoan.amount updatedLoan.interest_rate updatedLoan.term_months
        updatedLoan.monthly_payment now
      .ok ({ db1 with installments := db1.installments ++ schedule }, updatedLoan)

/-- `update loanInstallmentsTable set ... where eq(id, instId)`. -/
def updateInstallmentById (installments : List LoanInstallment)
    (instId : ℤ) (updated : LoanInstallment) : List LoanInstallment :=
  installments.map (fun r => if r.id == instId then updated else r)

/-- `handlers/record_loan_payment.ts` (`recordLoanPayment`, the
implemented variant): fetch the installment, reject overpayment, update
the installment row, then decrement the parent loan's remaining balance
by the payment increment, floored at 0.  Returns the store after all
committed writes together with the handler's result; on a thrown error
(which happens before any write) the store is unchanged. -/
def recordLoanPayment (now : ℤ) (input : RecordLoanPaymentInput)
    (db : DB) : DB × Except String LoanInstallment :=
  match db.installments.find? (fun r => r.id == input.installment_id) with
  | none => (db, .error "Loan installment not found")
  | some installment =>
    let currentPaidAmount := installment.paid_amount
    let newPaidAmount := currentPaidAmount + input.paid_amount
    let installmentAmount := installment.amount
    if installmentAmount < newPaidAmount then
      (db, .error "Payment amount would exceed remaining balance")
    else
      let isPaid : Bool := installmentAmount ≤ newPaidAmount
      -- JS: `isPaid && !installment.paid_at ? new Date() : installment.paid_at`
      let paidAt := if isPaid ∧ installment.paid_at = none then some now
                    else installment.paid_at
      let updatedInstallment :=
        { installment with
            paid_amount := newPaidAmount
            is_paid := isPaid
            paid_at := paidAt
            recorded_by := some input.recorded_by }
      let db1 := { db with installments :=
        updateInstallmentById db.installments input.installment_id updatedInstallment }
      match db1.loans.find? (fun l => l.id == installment.loan_id) with
      | none => (db1, .ok updatedInstallment)
      | some loan =>
        let newRemainingBalance := loan.remaining_balance - input.paid_amount
        let updatedLoan :=
          { loan with remaining_balance := max 0 newRemainingBalance }
        (({ db1 with loans :=
            updateLoanById db1.loans installment.loan_id updatedLoan }),
         .ok updatedInstallment)

/-- SQL comparison `start ≤ t AND t ≤ end` on a nullable timestamp
column: false when the column is NULL. -/
def inRangeOpt (t : Option ℤ) (startDate endDate : ℤ) : Bool :=
  match t with
  | none => false
  | some v => startDate ≤ v && endDate ≥ v

/-- The savings section of `generateFinancialReport`
(`calculateSavingsStatistics` in `handlers/generate_financial_report.ts`). -/
structure SavingsStats where
  total_deposits : ℚ
  total_withdrawals : ℚ
  net_savings : ℚ
  total_balance : ℚ
deriving Repr, DecidableEq

/-- The loans section of `generateFinancialReport`
(`calculateLoanStatistics`). -/
structure LoanStats where
  total_disbursed : ℚ
  total_repaid : ℚ
  outstanding_principal : ℚ
  interest_earned : ℚ
  active_loans : ℕ
  completed_loans : ℕ
deriving Repr, DecidableEq

/-- The installments section of `generateFinancialReport`
(`calculateInstallmentStatistics`). -/
structure InstallmentStats where
  total_expected : ℚ
  total_collected : ℚ
  overdue_amount : ℚ
  collection_rate : ℚ
deriving Repr, DecidableEq

/-- `FinancialReport` (period fields omitted: they are echoed inputs). -/
structure FinancialReport where
  savings : SavingsStats
  loans : LoanStats
  installments : InstallmentStats
deriving Repr, DecidableEq

/-- `calculateSavingsStatistics(start_date, end_date)`: deposit and
withdrawal sums over the window, plus the point-in-time balance total. -/
def calculateSavingsStatistics (db : DB) (startDate endDate : ℤ) :
    SavingsStats :=
  let inWindow := fun (t : Transaction) =>
    startDate ≤ t.created_at && endDate ≥ t.created_at
  let total_deposits :=
    ((db.transactions.filter (fun t => inWindow t && t.type == .deposit)).map
      (fun t => t.amount)).sum
  let total_withdrawals :=
    ((db.transactions.filter (fun t => inWindow t && t.type == .withdrawal)).map
      (fun t => t.amount)).sum
  let total_balance := (db.accounts.map (fun a => a.balance)).sum
  { total_deposits := total_deposits
    total_withdrawals := total_withdrawals
    net_savings := total_deposits - total_withdrawals
    total_balance := total_balance }

/-- The summand a single loan row contributes to the report's
`total_disbursed` aggregate: its principal when `status = 'active'` and
`disbursed_at` lies in the window (NULL never matches). -/
def disbursedContribution (startDate endDate : ℤ) (l : Loan) : ℚ :=
  if l.status == .active && inRangeOpt l.disbursed_at startDate endDate then
    l.amount
  else 0

/-- `calculateLoanStatistics(start_date, end_date)`. -/
def calculateLoanStatistics (db : DB) (startDate endDate : ℤ) : LoanStats :=
  let total_disbursed := (db.loans.map (disbursedContribution startDate endDate)).sum
  let paidInWindow := fun (r : LoanInstallment) =>
    r.is_paid && inRangeOpt r.paid_at startDate endDate
  let total_repaid :=
    ((db.installments.filter paidInWindow).map (fun r => r.paid_amount)).sum
  let outstanding_principal :=
    ((db.loans.filter (fun l => l.status == .active)).map
      (fun l => l.remaining_balance)).sum
  let interest_earned :=
    ((db.installments.filter paidInWindow).map (fun r => r.interest_amount)).sum
  { total_disbursed := total_disbursed
    total_repaid := total_repaid
    outstanding_principal := outstanding_principal
    interest_earned := interest_earned
    active_loans := (db.loans.filter (fun l => l.status == .active)).length
    completed_loans := (db.loans.filter (fun l => l.status == .completed)).length }

/-- `calculateInstallmentStatistics(start_date, end_date)`, including the
guarded `collection_rate` with its final 2-decimal rounding. -/
def calculateInstallmentStatistics (db : DB) (startDate endDate : ℤ) :
    InstallmentStats :=
  let total_expected :=
    ((db.installments.filter (fun r =>
        startDate ≤ r.due_date && endDate ≥ r.due_date)).map
      (fun r => r.amount)).sum
  let total_collected :=
    ((db.installments.filter (fun r =>
        0 < r.paid_amount && inRangeOpt r.paid_at startDate endDate)).map
      (fun r => r.paid_amount)).sum
  let overdue_amount :=
    ((db.installments.filter (fun r =>
        r.is_paid == false && endDate ≥ r.due_date)).map
      (fun r => r.amount - r.paid_amount)).sum
  let collection_rate :=
    if 0 < total_expected then total_collected / total_expected * 100 else 0
  { total_expected := total_expected
    total_collected := total_collected
    overdue_amount := overdue_amount
    collection_rate := round2 collection_rate }

/-- `handlers/generate_financial_report.ts` (`generateFinancialReport`):
the three independently computed sections. -/
def generateFinancialReport (db : DB) (startDate endDate : ℤ) :
    FinancialReport :=
  { savings := calculateSavingsStatistics db startDate endDate
    loans := calculateLoanStatistics db startDate endDate
    installments := calculateInstallmentStatistics db startDate endDate }

/-- A store with no rows at all. -/
def emptyDB : DB :=
  { users := [], accounts := [], transactions := [], loans := [], installments := [] }

/-- A pending loan row as `applyForLoan` creates it (used to build
concrete stores for the concrete-input theorems). -/
def mkPendingLoan (loanId userId : ℤ) (amount : ℚ) (termMonths : ℕ) : Loan :=
  { id := loanId
    user_id := userId
    amount := amount
    interest_rate := 0
    term_months := termMonths
    monthly_payment := 0
    total_amount := 0
    remaining_balance := 0
    status := .pending
    purpose := none
    approved_by := none
    approved_at := none
    disbursed_at := none
    created_at := 0
    updated_at := 0 }

/-- Store holding only the pending 10000-for-12-months application. -/
def dbTenThousand : DB :=
  { users := [7, 2], accounts := [], transactions := [],
    loans := [mkPendingLoan 1 7 10000 12], installments := [] }

/-- Approval decision at 12% annual interest by user 2 for loan 1. -/
def approveTwelvePct : ProcessLoanApplicationInput :=
  { loan_id := 1, status := .approved, approved_by := 2, interest_rate := some 12 }

set_option maxHeartbeats 3200000 in
/-- C1: approving the pending 10000/12-month loan at 12% yields
`monthly_payment = 888.49`, `total_amount = 10661.88`, status `active`
(not `approved`), `remaining_balance = total_amount`, and persists
exactly 12 installment rows numbered 1..12 tagged with the loan's id. -/
theorem approve_10000_term12_rate12_standard_values :
    ∃ db' loan',
      processLoanApplication 3 approveTwelvePct dbTenThousand = .ok (db', loan') ∧
      loan'.monthly_payment = 88849/100 ∧
      loan'.total_amount = 1066188/100 ∧
      loan'.status = .active ∧
      loan'.remaining_balance = loan'.total_amount ∧
      db'.installments.map (fun r => (r.installment_number, r.loan_id)) =
        [(1, 1), (2, 1), (3, 1), (4, 1), (5, 1), (6, 1),
         (7, 1), (8, 1), (9, 1), (10, 1), (11, 1), (12, 1)] := by
  norm_num [processLoanApplication, processLoanApplicationLoanUpdate,
    approveTwelvePct, dbTenThousand, mkPendingLoan, approvedLoanRow,
    approvalPaymentTerms, updateLoanById, createInstallmentSchedule,
    scheduleAux, round2, List.find?]
  exact ⟨_, _, ⟨rfl, rfl⟩, rfl, rfl, rfl, rfl, rfl⟩

/-- Sum of the `principal_amount` column over a list of installment rows. -/
def sumPrincipal (rows : List LoanInstallment) : ℚ :=
  (rows.map (fun r => r.principal_amount)).sum

lemma scheduleAux_ne_nil (lid : ℤ) (r mp : ℚ) (now : ℤ) (n : ℕ)
    (k : ℕ) (bal : ℚ) (hk : k ≠ 0) :
    scheduleAux lid r mp now n k bal ≠ [] := by
  cases k with
  | zero => exact absurd rfl hk
  | succ k =>
    by_cases h : k = 0 <;> simp [scheduleAux, h]

lemma scheduleAux_sumPrincipal (lid : ℤ) (r mp : ℚ) (now : ℤ) (n : ℕ) :
    ∀ (k : ℕ) (bal : ℚ), k ≠ 0 →
      sumPrincipal (scheduleAux lid r mp now n k bal) = bal := by
  intro k
  induction k with
  | zero => intro bal h; exact absurd rfl h
  | succ k ih =>
    intro bal _
    by_cases h : k = 0
    · subst h
      simp [scheduleAux, sumPrincipal]
    · simp only [scheduleAux, if_neg h, sumPrincipal, List.map_cons, List.sum_cons]
      rw [show ((scheduleAux lid r mp now n k (bal - (mp - bal * r))).map
        (fun x => x.principal_amount)).sum =
        sumPrincipal (scheduleAux lid r mp now n k (bal - (mp - bal * r))) from rfl,
        ih _ h]
      ring

lemma scheduleAux_dropLast_amount (lid : ℤ) (r mp : ℚ) (now : ℤ) (n : ℕ) :
    ∀ (k : ℕ) (bal : ℚ), ∀ row ∈ (scheduleAux lid r mp now n k bal).dropLast,
      row.amount = mp := by
  intro k
  induction k with
  | zero => intro bal row hrow; simp [scheduleAux] at hrow
  | succ k ih =>
    intro bal row hrow
    by_cases h : k = 0
    · subst h; simp [scheduleAux] at hrow
    · rw [scheduleAux, if_neg h,
        List.dropLast_cons_of_ne_nil (scheduleAux_ne_nil lid r mp now n k _ h)] at hrow
      rcases List.mem_cons.mp hrow with h1 | h2
      · subst h1; rfl
      · exact ih _ row h2

lemma getLast?_cons_tail_ne_nil {α : Type} (a : α) {t : List α} (h : t ≠ []) :
    (a :: t).getLast? = t.getLast? := by
  cases t with
  | nil => exact absurd rfl h
  | cons b t => rw [List.getLast?_cons_cons]

lemma scheduleAux_getLast_amount (lid : ℤ) (r mp : ℚ) (now : ℤ) (n : ℕ) :
    ∀ (k : ℕ) (bal : ℚ) (row : LoanInstallment),
      (scheduleAux lid r mp now n k bal).getLast? = some row →
      row.amount = row.principal_amount + row.interest_amount := by
  intro k
  induction k with
  | zero => intro bal row h; simp [scheduleAux] at h
  | succ k ih =>
    intro bal row h
    by_cases hk : k = 0
    · subst hk
      simp [scheduleAux] at h
      subst h; rfl
    · rw [scheduleAux, if_neg hk,
        getLast?_cons_tail_ne_nil _ (scheduleAux_ne_nil lid r mp now n k _ hk)] at h
      exact ih _ row h

/-- C2: for an approved loan's generated schedule the principal column
sums to the original principal exactly, every non-final row's `amount` is
the (rounded) monthly payment, and the final row pays off the remaining
balance before it plus its interest. -/
theorem schedule_reconciles (lid : ℤ) (principal rate : ℚ) (n : ℕ)
    (mp : ℚ) (now : ℤ) (sch : List LoanInstallment)
    (hsch : sch = createInstallmentSchedule lid principal rate n mp now)
    (_hr : 0 < rate) (hn : 1 ≤ n) :
    sumPrincipal sch = principal ∧
    (∀ row ∈ sch.dropLast, row.amount = mp) ∧
    ∀ row : LoanInstallment, sch.getLast? = some row →
      row.principal_amount = principal - sumPrincipal sch.dropLast ∧
      row.amount = row.principal_amount + row.interest_amount := by
  have hn0 : n ≠ 0 := by omega
  have hsum : sumPrincipal sch = principal := by
    rw [hsch, createInstallmentSchedule]
    exact scheduleAux_sumPrincipal lid _ mp now n n principal hn0
  refine ⟨hsum, ?_, ?_⟩
  · intro row hrow
    rw [hsch, createInstallmentSchedule] at hrow
    exact scheduleAux_dropLast_amount lid _ mp now n n principal row hrow
  · intro row hlast
    have hne : sch ≠ [] := by
      rw [hsch, createInstallmentSchedule]
      exact scheduleAux_ne_nil lid _ mp now n n principal hn0
    have hrow : row = sch.getLast hne := by
      rw [List.getLast?_eq_getLast_of_ne_nil hne, Option.some.injEq] at hlast
      exact hlast.symm
    have hdecomp : sch.dropLast ++ [row] = sch := by
      rw [hrow]; exact List.dropLast_append_getLast hne
    constructor
    · have : sumPrincipal (sch.dropLast ++ [row]) = principal := by
        rw [hdecomp]; exact hsum
      simp only [sumPrincipal, List.map_append, List.sum_append, List.map_cons,
        List.map_nil, List.sum_cons, List.sum_nil, add_zero] at this
      have h2 : sumPrincipal sch.dropLast + row.principal_amount = principal := this
      linarith
    · rw [hsch, createInstallmentSchedule] at hlast
      exact scheduleAux_getLast_amount lid _ mp now n n principal row hlast

theorem schedule_reconciles_witness :
    sumPrincipal (createInstallmentSchedule 1 100 12 2 51 0) = 100 ∧
    (∀ row ∈ (createInstallmentSchedule 1 100 12 2 51 0).dropLast, row.amount = 51) ∧
    ∀ row : LoanInstallment,
      (createInstallmentSchedule 1 100 12 2 51 0).getLast? = some row →
      row.principal_amount =
        100 - sumPrincipal (createInstallmentSchedule 1 100 12 2 51 0).dropLast ∧
      row.amount = row.principal_amount + row.interest_amount :=
  schedule_reconciles 1 100 12 2 51 0 _ rfl (by norm_num) (by norm_num)

/-- Pending one-loan store parametrised by principal and term (loan id 1,
member 7, approver 2 exist). -/
def dbPend (amount : ℚ) (term : ℕ) : DB :=
  { users := [7, 2], accounts := [], transactions := [],
    loans := [mkPendingLoan 1 7 amount term], installments := [] }

/-- Approval input for loan 1 at a given annual rate. -/
def approveAt (rate : ℚ) : ProcessLoanApplicationInput :=
  { loan_id := 1, status := .approved, approved_by := 2, interest_rate := some rate }

/-- C3 (amended): on approval the monthly payment is the 2-decimal
rounding of the amortization formula and, for a positive rate,
`total_amount` is that rounded payment times the term; for rate 0 the
payment is the rounded straight division `round2 (P / n)` and
`total_amount` is the principal itself. -/
theorem approval_payment_rounding (now : ℤ) (input : ProcessLoanApplicationInput)
    (db : DB) (loan : Loan) (rate : ℚ)
    (hfind : db.loans.find? (fun l => l.id == input.loan_id) = some loan)
    (hpend : loan.status = .pending)
    (hdec : input.status = .approved)
    (hrate : input.interest_rate = some rate) :
    ∃ db' loan', processLoanApplication now input db = .ok (db', loan') ∧
      (0 < rate →
        loan'.monthly_payment =
          round2 (loan.amount * ((rate/100/12) * (1 + rate/100/12) ^ loan.term_months) /
            ((1 + rate/100/12) ^ loan.term_months - 1)) ∧
        loan'.total_amount = loan'.monthly_payment * (loan.term_months : ℚ)) ∧
      (rate = 0 →
        loan'.monthly_payment = round2 (loan.amount / (loan.term_months : ℚ)) ∧
        loan'.total_amount = loan.amount) := by
  obtain ⟨db', hdb⟩ : ∃ d, processLoanApplication now input db =
      .ok (d, approvedLoanRow now input.approved_by rate loan) := by
    simp [processLoanApplication, processLoanApplicationLoanUpdate, hfind, hpend,
      hdec, hrate]
  refine ⟨db', approvedLoanRow now input.approved_by rate loan, hdb, ?_, ?_⟩
  · intro hr
    have hpos : (0 : ℚ) < rate / 100 / 12 := by positivity
    simp only [approvedLoanRow, approvalPaymentTerms, if_pos hpos]
    exact ⟨trivial, trivial⟩
  · intro h0
    subst h0
    have : ¬ ((0 : ℚ) < 0 / 100 / 12) := by norm_num
    simp only [approvedLoanRow, approvalPaymentTerms, if_neg this]
    exact ⟨trivial, trivial⟩

/-- C3 counterexample: approving the pending 100-for-3-months loan at
rate 0 gives `monthly_payment = 33.33` (not `100/3`) and
`total_amount = 100`, which is not `monthly_payment * 3 = 99.99`. -/
theorem approval_zero_rate_total_mismatch :
    ∃ db' loan', processLoanApplication 1 (approveAt 0) (dbPend 100 3) = .ok (db', loan') ∧
      loan'.monthly_payment = 3333/100 ∧
      loan'.total_amount = 100 ∧
      loan'.monthly_payment ≠ 100 / 3 ∧
      loan'.total_amount ≠ loan'.monthly_payment * 3 := by
  norm_num [processLoanApplication, processLoanApplicationLoanUpdate, approveAt,
    dbPend, mkPendingLoan, approvedLoanRow, approvalPaymentTerms, updateLoanById,
    createInstallmentSchedule, scheduleAux, round2, List.find?]
  exact ⟨_, _, ⟨rfl, rfl⟩, rfl, rfl, by norm_num, by norm_num⟩

theorem approval_payment_rounding_witness :
    ∃ db' loan', processLoanApplication 0 (approveAt 12) (dbPend 100 2) = .ok (db', loan') ∧
      (0 < (12:ℚ) →
        loan'.monthly_payment =
          round2 ((mkPendingLoan 1 7 100 2).amount *
            ((12/100/12) * (1 + 12/100/12) ^ (mkPendingLoan 1 7 100 2).term_months) /
            ((1 + 12/100/12) ^ (mkPendingLoan 1 7 100 2).term_months - 1)) ∧
        loan'.total_amount = loan'.monthly_payment * ((mkPendingLoan 1 7 100 2).term_months : ℚ)) ∧
      ((12:ℚ) = 0 →
        loan'.monthly_payment =
          round2 ((mkPendingLoan 1 7 100 2).amount / ((mkPendingLoan 1 7 100 2).term_months : ℚ)) ∧
        loan'.total_amount = (mkPendingLoan 1 7 100 2).amount) :=
  approval_payment_rounding 0 (approveAt 12) (dbPend 100 2)
    (mkPendingLoan 1 7 100 2) 12 rfl rfl rfl rfl

/-- Rejection input for loan 1 by approver 2. -/
def rejectInput : ProcessLoanApplicationInput :=
  { loan_id := 1, status := .rejected, approved_by := 2, interest_rate := none }

/-- C8: rejecting a pending loan sets `status = rejected`,
`approved_by = approver`, `approved_at = null`, and leaves the financial
fields untouched; and `applyForLoan` creates every pending loan with
those financial fields zero, so they stay at their pending-state zeros. -/
theorem reject_keeps_zero_financials (now : ℤ)
    (input : ProcessLoanApplicationInput) (db : DB) (loan : Loan)
    (hfind : db.loans.find? (fun l => l.id == input.loan_id) = some loan)
    (hpend : loan.status = .pending)
    (hdec : input.status = .rejected) :
    (∃ db' loan', processLoanApplication now input db = .ok (db', loan') ∧
      loan'.status = .rejected ∧
      loan'.approved_by = some input.approved_by ∧
      loan'.approved_at = none ∧
      loan'.interest_rate = loan.interest_rate ∧
      loan'.monthly_payment = loan.monthly_payment ∧
      loan'.total_amount = loan.total_amount ∧
      loan'.remaining_balance = loan.remaining_balance) ∧
    (∀ (now2 newId : ℤ) (ain : CreateLoanApplicationInput) (adb db2 : DB)
        (nloan : Loan), applyForLoan now2 newId ain adb = .ok (db2, nloan) →
      nloan.status = .pending ∧ nloan.interest_rate = 0 ∧
      nloan.monthly_payment = 0 ∧ nloan.total_amount = 0 ∧
      nloan.remaining_balance = 0) := by
  constructor
  · obtain ⟨db', hdb⟩ : ∃ d, processLoanApplication now input db =
        .ok (d, rejectedLoanRow now input.approved_by loan) := by
      simp [processLoanApplication, processLoanApplicationLoanUpdate, hfind,
        hpend, hdec]
    exact ⟨db', rejectedLoanRow now input.approved_by loan, hdb,
      rfl, rfl, rfl, rfl, rfl, rfl, rfl⟩
  · intro now2 newId ain adb db2 nloan h
    by_cases hc : adb.users.contains ain.user_id
    · simp only [applyForLoan, if_pos hc, Except.ok.injEq, Prod.mk.injEq] at h
      rw [← h.2]
      exact ⟨rfl, rfl, rfl, rfl, rfl⟩
    · unfold applyForLoan at h
      rw [if_neg hc] at h
      exact Except.noConfusion h

theorem reject_keeps_zero_financials_witness :
    (∃ db' loan', processLoanApplication 0 rejectInput (dbPend 100 3) = .ok (db', loan') ∧
      loan'.status = .rejected ∧
      loan'.approved_by = some rejectInput.approved_by ∧
      loan'.approved_at = none ∧
      loan'.interest_rate = (mkPendingLoan 1 7 100 3).interest_rate ∧
      loan'.monthly_payment = (mkPendingLoan 1 7 100 3).monthly_payment ∧
      loan'.total_amount = (mkPendingLoan 1 7 100 3).total_amount ∧
      loan'.remaining_balance = (mkPendingLoan 1 7 100 3).remaining_balance) ∧
    (∀ (now2 newId : ℤ) (ain : CreateLoanApplicationInput) (adb db2 : DB)
        (nloan : Loan), applyForLoan now2 newId ain adb = .ok (db2, nloan) →
      nloan.status = .pending ∧ nloan.interest_rate = 0 ∧
      nloan.monthly_payment = 0 ∧ nloan.total_amount = 0 ∧
      nloan.remaining_balance = 0) :=
  reject_keeps_zero_financials 0 rejectInput (dbPend 100 3)
    (mkPendingLoan 1 7 100 3) rfl rfl rfl

/-- C4: the loan-status update of an approval is a separate committed
statement that precedes the installment bulk insert (the source wraps
neither in a transaction), so right after it commits the store holds an
`active` loan with zero installment rows — the state left behind if the
insert fails. -/
theorem approve_commits_active_loan_before_installments :
    ∃ db1 loan',
      processLoanApplicationLoanUpdate 3 approveTwelvePct dbTenThousand =
        .ok (db1, loan') ∧
      loan'.status = .active ∧
      db1.loans.map (fun l => l.status) = [LoanStatus.active] ∧
      db1.installments = [] := by
  norm_num [processLoanApplicationLoanUpdate, approveTwelvePct, dbTenThousand,
    mkPendingLoan, approvedLoanRow, approvalPaymentTerms, updateLoanById,
    round2, List.find?]
  exact ⟨_, _, ⟨rfl, rfl⟩, rfl, rfl, rfl⟩

/-- An installment row for building concrete stores. -/
def instRow (instId loanId : ℤ) (amount paid : ℚ) : LoanInstallment :=
  { id := instId, loan_id := loanId, installment_number := 1, due_date := 30,
    amount := amount, principal_amount := amount, interest_amount := 0,
    paid_amount := paid, paid_at := none, recorded_by := none, is_paid := false }

/-- An active loan row for building concrete stores. -/
def mkActiveLoan (loanId : ℤ) (remaining : ℚ) : Loan :=
  { id := loanId, user_id := 7, amount := 100, interest_rate := 12,
    term_months := 2, monthly_payment := 51, total_amount := 102,
    remaining_balance := remaining, status := .active, purpose := none,
    approved_by := some 2, approved_at := some 0, disbursed_at := none,
    created_at := 0, updated_at := 0 }

/-- A store with one active loan and one of its installment rows. -/
def dbPay (inst : LoanInstallment) (loan : Loan) : DB :=
  { users := [7, 2], accounts := [], transactions := [],
    loans := [loan], installments := [inst] }

/-- A payment input recorded by user 2. -/
def payInput (instId : ℤ) (amt : ℚ) : RecordLoanPaymentInput :=
  { installment_id := instId, paid_amount := amt, recorded_by := 2 }

/-- C5: `recordLoanPayment` throws the overpayment error exactly when the
cumulative paid amount would exceed the installment's own `amount`, and
the throw happens before any write, leaving the whole store unchanged;
otherwise it returns an updated installment. -/
theorem overpayment_rejected_store_unchanged (now : ℤ)
    (input : RecordLoanPaymentInput) (db : DB) (inst : LoanInstallment)
    (hfind : db.installments.find? (fun r => r.id == input.installment_id) =
      some inst) :
    (inst.amount < inst.paid_amount + input.paid_amount →
      recordLoanPayment now input db =
        (db, .error "Payment amount would exceed remaining balance")) ∧
    (inst.paid_amount + input.paid_amount ≤ inst.amount →
      ∃ r, (recordLoanPayment now input db).2 = .ok r) := by
  constructor
  · intro hover
    simp only [recordLoanPayment, hfind, if_pos hover]
  · intro hle
    simp only [recordLoanPayment, hfind, if_neg (not_lt.mpr hle)]
    rcases h2 : List.find? (fun l => l.id == inst.loan_id) db.loans with _ | loan <;>
      simp [h2]

theorem overpayment_rejected_store_unchanged_witness :
    ((instRow 10 1 (2198/25) 0).amount <
        (instRow 10 1 (2198/25) 0).paid_amount + (payInput 10 100).paid_amount →
      recordLoanPayment 5 (payInput 10 100)
          (dbPay (instRow 10 1 (2198/25) 0) (mkActiveLoan 1 102)) =
        (dbPay (instRow 10 1 (2198/25) 0) (mkActiveLoan 1 102),
         .error "Payment amount would exceed remaining balance")) ∧
    ((instRow 10 1 (2198/25) 0).paid_amount + (payInput 10 100).paid_amount ≤
        (instRow 10 1 (2198/25) 0).amount →
      ∃ r, (recordLoanPayment 5 (payInput 10 100)
          (dbPay (instRow 10 1 (2198/25) 0) (mkActiveLoan 1 102))).2 = .ok r) :=
  overpayment_rejected_store_unchanged 5 (payInput 10 100)
    (dbPay (instRow 10 1 (2198/25) 0) (mkActiveLoan 1 102))
    (instRow 10 1 (2198/25) 0) rfl

/-- C6: a non-overpaying `recordLoanPayment` accumulates `paid_amount`,
sets `is_paid` exactly when the installment is now fully paid, stamps
`paid_at` on the call that first reaches full payment and never
overwrites an already-set `paid_at`, and stores the updated row. -/
theorem payment_success_updates_installment (now : ℤ)
    (input : RecordLoanPaymentInput) (db : DB) (inst : LoanInstallment)
    (hfind : db.installments.find? (fun r => r.id == input.installment_id) =
      some inst)
    (hle : inst.paid_amount + input.paid_amount ≤ inst.amount) :
    ∃ inst', (recordLoanPayment now input db).2 = .ok inst' ∧
      inst'.paid_amount = inst.paid_amount + input.paid_amount ∧
      (inst'.is_paid = true ↔ inst.amount ≤ inst.paid_amount + input.paid_amount) ∧
      inst'.paid_at = (if inst.amount ≤ inst.paid_amount + input.paid_amount ∧
          inst.paid_at = none then some now else inst.paid_at) ∧
      (recordLoanPayment now input db).1.installments =
        updateInstallmentById db.installments input.installment_id inst' := by
  simp only [recordLoanPayment, hfind, if_neg (not_lt.mpr hle)]
  rcases h2 : List.find? (fun l => l.id == inst.loan_id) db.loans with _ | loan <;>
    rw [h2] <;> exact ⟨_, rfl, rfl, by simp, by simp, rfl⟩

theorem payment_success_updates_installment_witness :
    (∃ inst', (recordLoanPayment 5 (payInput 10 50)
        (dbPay (instRow 10 1 (2198/25) 0) (mkActiveLoan 1 102))).2 = .ok inst' ∧
      inst'.paid_amount = (instRow 10 1 (2198/25) 0).paid_amount + (payInput 10 50).paid_amount ∧
      (inst'.is_paid = true ↔ (instRow 10 1 (2198/25) 0).amount ≤
        (instRow 10 1 (2198/25) 0).paid_amount + (payInput 10 50).paid_amount) ∧
      inst'.paid_at = (if (instRow 10 1 (2198/25) 0).amount ≤
          (instRow 10 1 (2198/25) 0).paid_amount + (payInput 10 50).paid_amount ∧
          (instRow 10 1 (2198/25) 0).paid_at = none then some 5
        else (instRow 10 1 (2198/25) 0).paid_at) ∧
      (recordLoanPayment 5 (payInput 10 50)
        (dbPay (instRow 10 1 (2198/25) 0) (mkActiveLoan 1 102))).1.installments =
        updateInstallmentById
          (dbPay (instRow 10 1 (2198/25) 0) (mkActiveLoan 1 102)).installments
          (payInput 10 50).installment_id inst') ∧
    (∃ inst', (recordLoanPayment 6 (payInput 10 (948/25))
        (dbPay (instRow 10 1 (2198/25) 50) (mkActiveLoan 1 52))).2 = .ok inst' ∧
      inst'.paid_amount = (instRow 10 1 (2198/25) 50).paid_amount + (payInput 10 (948/25)).paid_amount ∧
      (inst'.is_paid = true ↔ (instRow 10 1 (2198/25) 50).amount ≤
        (instRow 10 1 (2198/25) 50).paid_amount + (payInput 10 (948/25)).paid_amount) ∧
      inst'.paid_at = (if (instRow 10 1 (2198/25) 50).amount ≤
          (instRow 10 1 (2198/25) 50).paid_amount + (payInput 10 (948/25)).paid_amount ∧
          (instRow 10 1 (2198/25) 50).paid_at = none then some 6
        else (instRow 10 1 (2198/25) 50).paid_at) ∧
      (recordLoanPayment 6 (payInput 10 (948/25))
        (dbPay (instRow 10 1 (2198/25) 50) (mkActiveLoan 1 52))).1.installments =
        updateInstallmentById
          (dbPay (instRow 10 1 (2198/25) 50) (mkActiveLoan 1 52)).installments
          (payInput 10 (948/25)).installment_id inst') :=
  ⟨payment_success_updates_installment 5 (payInput 10 50)
      (dbPay (instRow 10 1 (2198/25) 0) (mkActiveLoan 1 102))
      (instRow 10 1 (2198/25) 0) rfl (by norm_num [instRow, payInput]),
   payment_success_updates_installment 6 (payInput 10 (948/25))
      (dbPay (instRow 10 1 (2198/25) 50) (mkActiveLoan 1 52))
      (instRow 10 1 (2198/25) 50) rfl (by norm_num [instRow, payInput])⟩

/-- The loan row written by `recordLoanPayment`'s balance update:
`remaining_balance = max(0, old - increment)`. -/
def paymentUpdatedLoan (loan : Loan) (inc : ℚ) : Loan :=
  { loan with remaining_balance := max 0 (loan.remaining_balance - inc) }

/-- `find?` after a SQL-style `update ... where p` replacing every match
by the fixed row `u`: when the original list had a match and `u` still
matches, the first match afterwards is `u`. -/
lemma updateLoanById_find?_of_found (loans : List Loan) (i : ℤ) (u : Loan)
    (hu : (u.id == i) = true) (x : Loan)
    (hx : loans.find? (fun l => l.id == i) = some x) :
    (updateLoanById loans i u).find? (fun l => l.id == i) = some u := by
  induction loans with
  | nil => simp at hx
  | cons a t ih =>
    by_cases hpa : (a.id == i) = true
    · simp only [updateLoanById, List.map_cons, if_pos hpa]
      exact List.find?_cons_of_pos _ hu
    · rw [List.find?_cons_of_neg (p := fun l : Loan => l.id == i) _ hpa] at hx
      simp only [updateLoanById, List.map_cons, if_neg hpa]
      rw [List.find?_cons_of_neg (p := fun l : Loan => l.id == i) _ hpa]
      exact ih hx

/-- C7: a successful `recordLoanPayment` updates the parent loan's
`remaining_balance` to `max 0 (old - paid_amount)`: it stays
non-negative, never increases, and drops by exactly the increment just
applied whenever that does not cross zero. -/
theorem payment_decrements_loan_balance (now : ℤ)
    (input : RecordLoanPaymentInput) (db : DB) (inst : LoanInstallment)
    (loan : Loan)
    (hfind : db.installments.find? (fun r => r.id == input.installment_id) =
      some inst)
    (hle : inst.paid_amount + input.paid_amount ≤ inst.amount)
    (hloan : db.loans.find? (fun l => l.id == inst.loan_id) = some loan)
    (hpos : 0 < input.paid_amount)
    (hnn : 0 ≤ loan.remaining_balance) :
    ∃ loan', (recordLoanPayment now input db).1.loans.find?
        (fun l => l.id == inst.loan_id) = some loan' ∧
      loan'.remaining_balance = max 0 (loan.remaining_balance - input.paid_amount) ∧
      0 ≤ loan'.remaining_balance ∧
      loan'.remaining_balance ≤ loan.remaining_balance ∧
      (input.paid_amount ≤ loan.remaining_balance →
        loan'.remaining_balance = loan.remaining_balance - input.paid_amount) := by
  refine ⟨paymentUpdatedLoan loan input.paid_amount, ?_, rfl, le_max_left 0 _,
    max_le hnn (by linarith), fun h => max_eq_right (by linarith)⟩
  simp only [recordLoanPayment, hfind, if_neg (not_lt.mpr hle)]
  rw [hloan]
  exact updateLoanById_find?_of_found db.loans inst.loan_id _
    (by simpa using List.find?_some hloan) loan hloan

theorem payment_decrements_loan_balance_witness :
    ∃ loan', (recordLoanPayment 5 (payInput 10 40)
        (dbPay (instRow 10 1 100 0) (mkActiveLoan 1 100))).1.loans.find?
        (fun l => l.id == (instRow 10 1 100 0).loan_id) = some loan' ∧
      loan'.remaining_balance =
        max 0 ((mkActiveLoan 1 100).remaining_balance - (payInput 10 40).paid_amount) ∧
      0 ≤ loan'.remaining_balance ∧
      loan'.remaining_balance ≤ (mkActiveLoan 1 100).remaining_balance ∧
      ((payInput 10 40).paid_amount ≤ (mkActiveLoan 1 100).remaining_balance →
        loan'.remaining_balance =
          (mkActiveLoan 1 100).remaining_balance - (payInput 10 40).paid_amount) :=
  payment_decrements_loan_balance 5 (payInput 10 40)
    (dbPay (instRow 10 1 100 0) (mkActiveLoan 1 100)) (instRow 10 1 100 0)
    (mkActiveLoan 1 100) rfl (by norm_num [instRow, payInput]) rfl
    (by norm_num [payInput]) (by norm_num [mkActiveLoan])

/-- C9: the report's `collection_rate` equals
`round2 (total_collected / total_expected * 100)` whenever
`total_expected > 0` and is 0 when `total_expected = 0`; on the empty
store every installment aggregate is 0. -/
theorem collection_rate_guarded (db : DB) (s e : ℤ) :
    ((calculateInstallmentStatistics db s e).collection_rate =
      if 0 < (calculateInstallmentStatistics db s e).total_expected then
        round2 ((calculateInstallmentStatistics db s e).total_collected /
          (calculateInstallmentStatistics db s e).total_expected * 100)
      else 0) ∧
    (generateFinancialReport emptyDB s e).installments.collection_rate = 0 ∧
    (generateFinancialReport emptyDB s e).installments.total_expected = 0 ∧
    (generateFinancialReport emptyDB s e).installments.total_collected = 0 ∧
    (generateFinancialReport emptyDB s e).installments.overdue_amount = 0 := by
  refine ⟨?_, ?_, ?_, ?_, ?_⟩
  · simp only [calculateInstallmentStatistics]
    split_ifs with h
    · rfl
    · norm_num [round2]
  · norm_num [generateFinancialReport, calculateInstallmentStatistics, emptyDB,
      round2]
  · norm_num [generateFinancialReport, calculateInstallmentStatistics, emptyDB]
  · norm_num [generateFinancialReport, calculateInstallmentStatistics, emptyDB]
  · norm_num [generateFinancialReport, calculateInstallmentStatistics, emptyDB]

/-- `find?` over an append whose left part contains no row with id `i`
and whose appended row has id `i`: the appended row is found. -/
lemma find?_append_fresh_self (loans : List Loan) (i : ℤ) (nl : Loan)
    (hfresh : ∀ l ∈ loans, l.id ≠ i) (hid : nl.id = i) :
    (loans ++ [nl]).find? (fun l => l.id == i) = some nl := by
  induction loans with
  | nil =>
    simp only [List.nil_append]
    exact List.find?_cons_of_pos _ (by simp [hid])
  | cons a t ih =>
    rw [List.cons_append,
      List.find?_cons_of_neg (p := fun l : Loan => l.id == i) _
        (by simp [hfresh a (List.mem_cons_self a t)])]
    exact ih (fun l hl => hfresh l (List.mem_cons_of_mem a hl))

/-- A SQL-style `update ... where id = i` over an append whose left part
contains no row with id `i`: only the appended row is replaced. -/
lemma updateLoanById_append_fresh (loans : List Loan) (i : ℤ) (u nl : Loan)
    (hfresh : ∀ l ∈ loans, l.id ≠ i) :
    updateLoanById (loans ++ [nl]) i u =
      loans ++ [if nl.id == i then u else nl] := by
  induction loans with
  | nil => rfl
  | cons a t ih =>
    simp only [List.cons_append, updateLoanById, List.map_cons,
      if_neg (by simp [hfresh a (List.mem_cons_self a t)] :
        ¬((a.id == i) = true))]
    rw [show (List.map (fun l => if l.id == i then u else l) (t ++ [nl])) =
      updateLoanById (t ++ [nl]) i u from rfl,
      ih (fun l hl => hfresh l (List.mem_cons_of_mem a hl))]

/-- A loan whose `disbursed_at` is NULL contributes 0 to the report's
`total_disbursed` sum. -/
lemma disbursedContribution_none (s e : ℤ) (l : Loan)
    (h : l.disbursed_at = none) : disbursedContribution s e l = 0 := by
  simp [disbursedContribution, inRangeOpt, h]

/-- Appending a NULL-`disbursed_at` loan row leaves the report's
`total_disbursed` sum unchanged. -/
lemma totalDisbursed_append_none (rows : List Loan) (u : Loan) (s e : ℤ)
    (hu : u.disbursed_at = none) :
    ((rows ++ [u]).map (disbursedContribution s e)).sum =
      (rows.map (disbursedContribution s e)).sum := by
  simp [List.map_append, disbursedContribution_none s e u hu]

/-- C10: neither `applyForLoan` nor `processLoanApplication` writes
`disbursed_at`: a loan applied for and then processed (approved or
rejected) still has `disbursed_at = null`, and the report's
`total_disbursed` is unchanged by the two operations for every date
window, i.e. such a loan contributes 0. -/
theorem disbursed_at_never_written (now1 now2 newId : ℤ)
    (ain : CreateLoanApplicationInput) (pin : ProcessLoanApplicationInput)
    (db db1 db2 : DB) (nloan uloan : Loan)
    (happly : applyForLoan now1 newId ain db = .ok (db1, nloan))
    (hfresh : ∀ l ∈ db.loans, l.id ≠ newId)
    (hpin : pin.loan_id = newId)
    (hproc : processLoanApplication now2 pin db1 = .ok (db2, uloan)) :
    nloan.disbursed_at = none ∧
    uloan.disbursed_at = none ∧
    ∀ s e, (calculateLoanStatistics db2 s e).total_disbursed =
      (calculateLoanStatistics db s e).total_disbursed := by
  -- unpack the application step
  unfold applyForLoan at happly
  by_cases hc : db.users.contains ain.user_id
  case neg =>
    rw [if_neg hc] at happly
    exact Except.noConfusion happly
  rw [if_pos hc] at happly
  simp only [Except.ok.injEq, Prod.mk.injEq] at happly
  obtain ⟨hdb1, hnl⟩ := happly
  subst hdb1
  subst hnl
  refine ⟨rfl, ?_⟩
  -- unpack the processing step
  unfold processLoanApplication processLoanApplicationLoanUpdate at hproc
  rw [hpin] at hproc
  rw [show ({ db with loans := db.loans ++ [_] } : DB).loans =
    db.loans ++ [_] from rfl] at hproc
  rw [find?_append_fresh_self db.loans newId _ hfresh rfl] at hproc
  rcases hps : pin.status with _ | _
  · -- approved
    rw [hps] at hproc
    rcases hir : pin.interest_rate with _ | rate
    · rw [hir] at hproc
      simp at hproc
    · rw [hir] at hproc
      simp at hproc
      obtain ⟨hdb2, hul⟩ := hproc
      subst hdb2
      subst hul
      refine ⟨rfl, ?_⟩
      intro s e
      simp only [calculateLoanStatistics]
      rw [updateLoanById_append_fresh db.loans newId _ _ hfresh]
      rw [show ((if (newId : ℤ) == newId then
        approvedLoanRow now2 pin.approved_by rate
          { id := newId, user_id := ain.user_id, amount := ain.amount,
            interest_rate := 0, term_months := ain.term_months,
            monthly_payment := 0, total_amount := 0, remaining_balance := 0,
            status := .pending, purpose := ain.purpose, approved_by := none,
            approved_at := none, disbursed_at := none, created_at := now1,
            updated_at := now1 }
        else _) : Loan) = approvedLoanRow now2 pin.approved_by rate
          { id := newId, user_id := ain.user_id, amount := ain.amount,
            interest_rate := 0, term_months := ain.term_months,
            monthly_payment := 0, total_amount := 0, remaining_balance := 0,
            status := .pending, purpose := ain.purpose, approved_by := none,
            approved_at := none, disbursed_at := none, created_at := now1,
            updated_at := now1 } from if_pos (by simp)]
      exact totalDisbursed_append_none db.loans _ s e rfl
  · -- rejected
    rw [hps] at hproc
    simp at hproc
    obtain ⟨hdb2, hul⟩ := hproc
    subst hdb2
    subst hul
    refine ⟨rfl, ?_⟩
    intro s e
    simp only [calculateLoanStatistics]
    rw [updateLoanById_append_fresh db.loans newId _ _ hfresh]
    rw [show ((if (newId : ℤ) == newId then
      rejectedLoanRow now2 pin.approved_by
        { id := newId, user_id := ain.user_id, amount := ain.amount,
          interest_rate := 0, term_months := ain.term_months,
          monthly_payment := 0, total_amount := 0, remaining_balance := 0,
          status := .pending, purpose := ain.purpose, approved_by := none,
          approved_at := none, disbursed_at := none, created_at := now1,
          updated_at := now1 }
      else _) : Loan) = rejectedLoanRow now2 pin.approved_by
        { id := newId, user_id := ain.user_id, amount := ain.amount,
          interest_rate := 0, term_months := ain.term_months,
          monthly_payment := 0, total_amount := 0, remaining_balance := 0,
          status := .pending, purpose := ain.purpose, approved_by := none,
          approved_at := none, disbursed_at := none, created_at := now1,
          updated_at := now1 } from if_pos (by simp)]
    exact totalDisbursed_append_none db.loans _ s e rfl

/-- Empty-portfolio store with users 7 and 2. -/
def dbNoLoans : DB :=
  { users := [7, 2], accounts := [], transactions := [],
    loans := [], installments := [] }

/-- Loan application input used by the C10 witness. -/
def ainW : CreateLoanApplicationInput :=
  { user_id := 7, amount := 100, term_months := 2, purpose := none }

/-- The store after applying for loan 1 on `dbNoLoans` and approving it
at 12% (spelled with the embedding's own update functions, so the
equation with `processLoanApplication` holds definitionally). -/
def dbAfterApprove : DB :=
  { users := [7, 2], accounts := [], transactions := [],
    loans := [approvedLoanRow 1 2 12 (mkPendingLoan 1 7 100 2)],
    installments := createInstallmentSchedule 1 100 12 2
      (approvedLoanRow 1 2 12 (mkPendingLoan 1 7 100 2)).monthly_payment 1 }

theorem disbursed_at_never_written_witness :
    (mkPendingLoan 1 7 100 2).disbursed_at = none ∧
    (approvedLoanRow 1 2 12 (mkPendingLoan 1 7 100 2)).disbursed_at = none ∧
    ∀ s e, (calculateLoanStatistics dbAfterApprove s e).total_disbursed =
      (calculateLoanStatistics dbNoLoans s e).total_disbursed :=
  disbursed_at_never_written 0 1 1 ainW (approveAt 12) dbNoLoans
    (dbPend 100 2) dbAfterApprove (mkPendingLoan 1 7 100 2)
    (approvedLoanRow 1 2 12 (mkPendingLoan 1 7 100 2))
    rfl (by simp [dbNoLoans]) rfl rfl

end CoopLoan
